import Mathlib

/-!
Verification of the Intake-Postgres PostGIS demo notebook.

The notebook has four stages: a Fetcher (download cell), a Loader
(drop/create/insert cell), a Reader (external catalog) and a Projector
(the Web-Mercator helpers lon_to_mercx and lat_to_mercy).  We embed the
numeric helpers over the real numbers, the download cell as a function on
an explicit filesystem/network environment, and the insert loop as a
function on an explicit table state.
-/

open Real

/-- Earth's radius in meters, source constant EARTH_RADIUS = 6378137. -/
noncomputable def EARTH_RADIUS : ℝ := 6378137

/-- np.radians: degrees to radians. -/
noncomputable def radians (deg : ℝ) : ℝ := deg * (π / 180)

/-- Source: x = EARTH_RADIUS * np.radians(lon). -/
noncomputable def lon_to_mercx (lon : ℝ) : ℝ := EARTH_RADIUS * radians lon

/-- Source: y = 180. / np.pi * np.log(np.tan(np.pi / 4. + lat * (np.pi / 180.) / 2.)) * x / lon
with x = lon_to_mercx lon. -/
noncomputable def lat_to_mercy (lon lat : ℝ) : ℝ :=
  180 / π * Real.log (Real.tan (π / 4 + lat * (π / 180) / 2)) * lon_to_mercx lon / lon

/-- Checked division: the one division in lat_to_mercy whose divisor is an
input (division by lon); returns none on a zero divisor. -/
noncomputable def div? (a b : ℝ) : Option ℝ :=
  if b = 0 then none else some (a / b)

/-- lat_to_mercy with its division by the raw longitude made fallible:
evaluates the same expression but signals the division by zero. -/
noncomputable def lat_to_mercyChecked (lon lat : ℝ) : Option ℝ :=
  div? (180 / π * Real.log (Real.tan (π / 4 + lat * (π / 180) / 2)) * lon_to_mercx lon) lon

/-- Reference spherical Web-Mercator y-transform from the spec:
y = R * ln(tan(pi/4 + lat/2)), lat in radians, no longitude term. -/
noncomputable def mercyReference (lat : ℝ) : ℝ :=
  EARTH_RADIUS * Real.log (Real.tan (π / 4 + radians lat / 2))

/-- C1: lon_to_mercx lon is EARTH_RADIUS times lon in radians, i.e. a linear
function of lon with slope 6378137 * π / 180; it takes no latitude input, so
planar-x is independent of lat. -/
theorem lon_to_mercx_linear (lon : ℝ) :
    lon_to_mercx lon = 6378137 * radians lon ∧
      lon_to_mercx lon = 6378137 * π / 180 * lon := by
  constructor
  · rfl
  · unfold lon_to_mercx EARTH_RADIUS radians
    ring

/-- Shared cancellation lemma: for lon ≠ 0 the longitude factor in
lat_to_mercy cancels against lon_to_mercx lon / lon. -/
lemma lat_to_mercy_cancels (lon lat : ℝ) (hlon : lon ≠ 0) :
    lat_to_mercy lon lat = mercyReference lat := by
  unfold lat_to_mercy mercyReference lon_to_mercx EARTH_RADIUS radians
  have hpi : (π : ℝ) ≠ 0 := Real.pi_ne_zero
  field_simp
  ring

/-- C2: for lon ≠ 0 and lat strictly between -90 and 90 degrees, the
longitude factor in lat_to_mercy cancels and the result equals the reference
spherical-Mercator value R * ln(tan(π/4 + lat/2)) (lat in radians),
independent of lon. -/
theorem lat_to_mercy_eq_reference (lon lat : ℝ) (hlon : lon ≠ 0)
    (hlo : -90 < lat) (hhi : lat < 90) :
    lat_to_mercy lon lat = mercyReference lat :=
  lat_to_mercy_cancels lon lat hlon

/-- C2 witness: at lon = 1, lat = 0 the hypotheses hold and the equality is
obtained from the theorem. -/
theorem lat_to_mercy_eq_reference_witness :
    lat_to_mercy 1 0 = mercyReference 0 :=
  lat_to_mercy_eq_reference 1 0 (by norm_num) (by norm_num) (by norm_num)

/-- C3: the division by the raw longitude value is unguarded: with lon = 0
the checked evaluation of lat_to_mercy reports a division by zero for every
lat, and it never does so when lon ≠ 0. -/
theorem lat_to_mercy_div_by_zero :
    (∀ lat : ℝ, lat_to_mercyChecked 0 lat = none) ∧
      (∀ lon lat : ℝ, lon ≠ 0 → lat_to_mercyChecked lon lat = some (lat_to_mercy lon lat)) := by
  constructor
  · intro lat
    simp [lat_to_mercyChecked, div?]
  · intro lon lat hlon
    simp [lat_to_mercyChecked, div?, hlon, lat_to_mercy]

/-- C3 witness: the theorem applied at lat = 0 and at lon = 1, lat = 0. -/
theorem lat_to_mercy_div_by_zero_witness :
    lat_to_mercyChecked 0 0 = none ∧
      lat_to_mercyChecked 1 0 = some (lat_to_mercy 1 0) :=
  ⟨lat_to_mercy_div_by_zero.1 0, lat_to_mercy_div_by_zero.2 1 0 (by norm_num)⟩

/-- C4: for every longitude of a valid input point (lon ≠ 0, the y-transform
being undefined at lon = 0), the planar-y of a point on the equator
(lat = 0) is 0. -/
theorem lat_to_mercy_equator (lon : ℝ) (hlon : lon ≠ 0) :
    lat_to_mercy lon 0 = 0 := by
  unfold lat_to_mercy
  have h : π / 4 + (0 : ℝ) * (π / 180) / 2 = π / 4 := by ring
  rw [h, Real.tan_pi_div_four, Real.log_one]
  ring

/-- C4 witness: the theorem applied at lon = 1. -/
theorem lat_to_mercy_equator_witness : lat_to_mercy 1 0 = 0 :=
  lat_to_mercy_equator 1 (by norm_num)

/-- The reference y-transform is strictly increasing in lat on (-90, 90). -/
lemma mercyReference_strict_lt (lat₁ lat₂ : ℝ)
    (h1 : -90 < lat₁) (h12 : lat₁ < lat₂) (h2 : lat₂ < 90) :
    mercyReference lat₁ < mercyReference lat₂ := by
  unfold mercyReference EARTH_RADIUS radians
  have hpi : (0 : ℝ) < π := Real.pi_pos
  have hθ₁pos : 0 < π / 4 + lat₁ * (π / 180) / 2 := by nlinarith
  have hθ₂lt : π / 4 + lat₂ * (π / 180) / 2 < π / 2 := by nlinarith
  have hθlt : π / 4 + lat₁ * (π / 180) / 2 < π / 4 + lat₂ * (π / 180) / 2 := by nlinarith
  have htan₁pos : 0 < Real.tan (π / 4 + lat₁ * (π / 180) / 2) :=
    Real.tan_pos_of_pos_of_lt_pi_div_two hθ₁pos (lt_trans hθlt hθ₂lt)
  have htanlt : Real.tan (π / 4 + lat₁ * (π / 180) / 2) <
      Real.tan (π / 4 + lat₂ * (π / 180) / 2) :=
    Real.tan_lt_tan_of_lt_of_lt_pi_div_two (by nlinarith) hθ₂lt hθlt
  have hlog : Real.log (Real.tan (π / 4 + lat₁ * (π / 180) / 2)) <
      Real.log (Real.tan (π / 4 + lat₂ * (π / 180) / 2)) :=
    Real.log_lt_log htan₁pos htanlt
  nlinarith

/-- C5: for every fixed lon ≠ 0, planar-y is strictly increasing in lat over
the open interval (-90, 90) degrees: lat₁ < lat₂ there implies
lat_to_mercy lon lat₁ < lat_to_mercy lon lat₂. -/
theorem lat_to_mercy_strictMono (lon lat₁ lat₂ : ℝ) (hlon : lon ≠ 0)
    (h1 : -90 < lat₁) (h12 : lat₁ < lat₂) (h2 : lat₂ < 90) :
    lat_to_mercy lon lat₁ < lat_to_mercy lon lat₂ := by
  rw [lat_to_mercy_cancels lon lat₁ hlon, lat_to_mercy_cancels lon lat₂ hlon]
  exact mercyReference_strict_lt lat₁ lat₂ h1 h12 h2

/-- C5 witness: the theorem applied at lon = 1, lat₁ = 0, lat₂ = 45. -/
theorem lat_to_mercy_strictMono_witness : lat_to_mercy 1 0 < lat_to_mercy 1 45 :=
  lat_to_mercy_strictMono 1 0 45 (by norm_num) (by norm_num) (by norm_num) (by norm_num)

/-!
Fetcher: the download cell.  The filesystem is a list of (path, content)
pairs; the network is a function from URL to an optional response body
(none models a transport failure); a writable flag per path models whether
opening and writing the local file succeeds.  The Bool in the result
records whether a network retrieval was performed.
-/

/-- Error taxonomy of the download cell: the first raise is the
download error, the second the file write error. -/
inductive FetchError where
  | downloadError
  | writeError
deriving DecidableEq, Repr

/-- Environment of the download cell: the network and write permissions. -/
structure FetchEnv where
  response : String → Option String
  writable : String → Bool

/-- os.path.isfile on the modelled filesystem. -/
def isfile (files : List (String × String)) (p : String) : Bool :=
  (files.lookup p).isSome

/-- The download cell: skip when fpath exists; otherwise requests.get url
(transport failure raises the download error), then write the body to
fpath (write failure raises the write error). Returns the filesystem and
whether a network retrieval happened. -/
def fetchData (files : List (String × String)) (env : FetchEnv) (url fpath : String) :
    Except FetchError (List (String × String) × Bool) :=
  if isfile files fpath then
    .ok (files, false)
  else
    match env.response url with
    | none => .error .downloadError
    | some body =>
      if env.writable fpath then
        .ok ((fpath, body) :: files, true)
      else
        .error .writeError

/-- C6: when the local path already exists, the Fetcher performs no network
retrieval and the filesystem is unchanged. -/
theorem fetchData_idempotent_skip (files : List (String × String)) (env : FetchEnv)
    (url fpath : String) (h : isfile files fpath = true) :
    fetchData files env url fpath = .ok (files, false) := by
  simp [fetchData, h]

/-- C6 witness: the theorem applied to a one-file filesystem that already
holds the target path. -/
theorem fetchData_idempotent_skip_witness :
    fetchData [("fortune_500.geojson", "body0")]
        ⟨fun _ => some "net", fun _ => true⟩ "u" "fortune_500.geojson" =
      .ok ([("fortune_500.geojson", "body0")], false) :=
  fetchData_idempotent_skip [("fortune_500.geojson", "body0")]
    ⟨fun _ => some "net", fun _ => true⟩ "u" "fortune_500.geojson" (by decide)

/-- C9: when the local path does not exist, a transport failure fails the
run with the download error, a write failure fails it with the write error,
and on success the full response body is written to the local path. -/
theorem fetchData_errors (files : List (String × String)) (env : FetchEnv)
    (url fpath : String) (h : isfile files fpath = false) :
    (env.response url = none → fetchData files env url fpath = .error .downloadError) ∧
      (∀ body, env.response url = some body → env.writable fpath = false →
        fetchData files env url fpath = .error .writeError) ∧
      (∀ body, env.response url = some body → env.writable fpath = true →
        fetchData files env url fpath = .ok ((fpath, body) :: files, true) ∧
          ((fpath, body) :: files).lookup fpath = some body) := by
  refine ⟨fun hnet => ?_, fun body hnet hw => ?_, fun body hnet hw => ⟨?_, ?_⟩⟩
  · simp [fetchData, h, hnet]
  · simp [fetchData, h, hnet, hw]
  · simp [fetchData, h, hnet, hw]
  · simp [List.lookup]

/-- C9 witness: the theorem applied to an empty filesystem, a failing
network, and then to a succeeding network with a failing and a succeeding
write. -/
theorem fetchData_errors_witness :
    fetchData [] ⟨fun _ => none, fun _ => true⟩ "u" "f" = .error .downloadError ∧
      fetchData [] ⟨fun _ => some "body", fun _ => false⟩ "u" "f" = .error .writeError ∧
      fetchData [] ⟨fun _ => some "body", fun _ => true⟩ "u" "f" = .ok ([("f", "body")], true) :=
  ⟨(fetchData_errors [] ⟨fun _ => none, fun _ => true⟩ "u" "f" (by decide)).1 rfl,
   (fetchData_errors [] ⟨fun _ => some "body", fun _ => false⟩ "u" "f" (by decide)).2.1
     "body" rfl rfl,
   ((fetchData_errors [] ⟨fun _ => some "body", fun _ => true⟩ "u" "f" (by decide)).2.2
     "body" rfl rfl).1⟩

/-!
Loader: the insert cell.  A feature carries a coordinate pair (as the
serialized numerals that the string formatting interpolates) and the
properties mapping with its fixed keys.  The fortune500 table is an
optional list of rows: none when absent, some rows once created.
-/

/-- The properties mapping of one GeoJSON feature, fixed keys. -/
structure Props where
  ZIP : String
  STATE : String
  NAME : String
  ADDRESS : String
  COUNTY : String
  CITY : String
  DIRECTIONS : String
deriving DecidableEq, Repr

/-- One GeoJSON feature: geometry.coordinates as the pair [lon, lat] plus
the properties. -/
structure Feature where
  coordinates : String × String
  props : Props
deriving DecidableEq, Repr

/-- One row of the fortune500 table, column order of the create statement:
location geometry, then name, address, city, state, zip_code, county,
directions as text. -/
structure StoredRow where
  location : String
  name : String
  address : String
  city : String
  state : String
  zip_code : String
  county : String
  directions : String
deriving DecidableEq, Repr

/-- The fortune500 table: none when absent, some rows once created. -/
def Database := Option (List StoredRow)

/-- drop table if exists fortune500. -/
def dropTable (_ : Database) : Database := none

/-- create table fortune500 (...). -/
def createTable (_ : Database) : Database := some []

/-- insert into fortune500 values (...): appends one row. -/
def insertRow (db : Database) (r : StoredRow) : Database :=
  Option.map (fun rows => rows ++ [r]) db

/-- The body of the insert loop for one feature, mirroring the source:
destructure the coordinates as lon, lat; read the properties in the order
ZIP, STATE, NAME, ADDRESS, COUNTY, CITY, DIRECTIONS into the tuple
zip_code, state, name, address, county, city, directions; insert the
values (geometry text, name, address, city, state, zip_code, county,
directions). -/
def rowOfFeature (feature : Feature) : StoredRow :=
  let (lon, lat) := feature.coordinates
  let props := feature.props
  let zip_code := props.ZIP
  let state := props.STATE
  let name := props.NAME
  let address := props.ADDRESS
  let county := props.COUNTY
  let city := props.CITY
  let directions := props.DIRECTIONS
  { location := "SRID=4326;POINT(" ++ lon ++ " " ++ lat ++ ")"
    name := name
    address := address
    city := city
    state := state
    zip_code := zip_code
    county := county
    directions := directions }

/-- The loader cell: drop table if exists, create table, then insert one
row per feature in input order. -/
def loadTable (db : Database) (features : List Feature) : Database :=
  features.foldl (fun d feature => insertRow d (rowOfFeature feature))
    (createTable (dropTable db))

/-- Folding the insert loop over a created table appends the mapped rows. -/
lemma loadTable_foldl_eq (features : List Feature) (acc : List StoredRow) :
    features.foldl (fun d feature => insertRow d (rowOfFeature feature)) (some acc) =
      some (acc ++ features.map rowOfFeature) := by
  induction features generalizing acc with
  | nil => simp
  | cons f fs ih =>
    simp only [List.foldl_cons, List.map_cons]
    rw [show insertRow (some acc) (rowOfFeature f) = some (acc ++ [rowOfFeature f]) from rfl, ih]
    simp

/-- The loader always produces exactly the mapped rows, whatever the prior
table state. -/
lemma loadTable_eq_map (db : Database) (features : List Feature) :
    loadTable db features = some (features.map rowOfFeature) := by
  unfold loadTable createTable
  simpa using loadTable_foldl_eq features []

/-- C7: the loader drops any pre-existing table and recreates it, so running
it twice on the same input leaves exactly the state a single run leaves:
same row count, same content, no accumulation. -/
theorem loadTable_replace (db : Database) (features : List Feature) :
    loadTable (loadTable db features) features = loadTable db features ∧
      (∀ rows rows₂ : List StoredRow,
        loadTable db features = some rows →
        loadTable (loadTable db features) features = some rows₂ →
        rows₂.length = rows.length ∧ rows₂ = rows) := by
  refine ⟨?_, ?_⟩
  · rw [loadTable_eq_map, loadTable_eq_map]
  · intro rows rows₂ h1 h2
    rw [loadTable_eq_map] at h1
    rw [loadTable_eq_map] at h2
    cases h1
    cases h2
    exact ⟨rfl, rfl⟩

/-- C7 witness: the theorem applied to an absent table and a singleton
input, with the equalities discharged on the concrete result. -/
theorem loadTable_replace_witness :
    loadTable (loadTable none [⟨("1", "2"), ⟨"z", "s", "n", "a", "co", "ci", "d"⟩⟩])
        [⟨("1", "2"), ⟨"z", "s", "n", "a", "co", "ci", "d"⟩⟩] =
      loadTable none [⟨("1", "2"), ⟨"z", "s", "n", "a", "co", "ci", "d"⟩⟩] :=
  (loadTable_replace none [⟨("1", "2"), ⟨"z", "s", "n", "a", "co", "ci", "d"⟩⟩]).1

/-- C8: the loader inserts exactly one row per feature, in input order: the
resulting table is precisely the input features mapped through
rowOfFeature, so the i-th inserted row is derived from the i-th feature. -/
theorem loadTable_one_to_one (db : Database) (features : List Feature) :
    loadTable db features = some (features.map rowOfFeature) ∧
      (∀ rows : List StoredRow, loadTable db features = some rows →
        rows.length = features.length ∧
          ∀ i : ℕ, rows[i]? = (features[i]?).map rowOfFeature) := by
  refine ⟨loadTable_eq_map db features, ?_⟩
  intro rows h
  rw [loadTable_eq_map] at h
  cases h
  exact ⟨List.length_map _ _, fun i => List.getElem?_map rowOfFeature features i⟩

/-- C8 witness: the theorem applied to an absent table and a two-feature
input, the second conjunct instantiated at the concrete result. -/
theorem loadTable_one_to_one_witness :
    loadTable none
        [⟨("1", "2"), ⟨"z", "s", "n", "a", "co", "ci", "d"⟩⟩,
         ⟨("3", "4"), ⟨"z2", "s2", "n2", "a2", "co2", "ci2", "d2"⟩⟩] =
      some
        [rowOfFeature ⟨("1", "2"), ⟨"z", "s", "n", "a", "co", "ci", "d"⟩⟩,
         rowOfFeature ⟨("3", "4"), ⟨"z2", "s2", "n2", "a2", "co2", "ci2", "d2"⟩⟩] :=
  (loadTable_one_to_one none
    [⟨("1", "2"), ⟨"z", "s", "n", "a", "co", "ci", "d"⟩⟩,
     ⟨("3", "4"), ⟨"z2", "s2", "n2", "a2", "co2", "ci2", "d2"⟩⟩]).1

/-- C10: the loader maps properties into columns by name, not by position:
name, address, city, state, zip_code, county, directions receive exactly
NAME, ADDRESS, CITY, STATE, ZIP, COUNTY, DIRECTIONS, although the source
reads the properties in the order ZIP, STATE, NAME, ADDRESS, COUNTY, CITY,
DIRECTIONS; the geometry text is SRID=4326;POINT(lon lat) from the
coordinate pair taken as [lon, lat]. -/
theorem rowOfFeature_by_name (f : Feature) :
    (rowOfFeature f).name = f.props.NAME ∧
      (rowOfFeature f).address = f.props.ADDRESS ∧
      (rowOfFeature f).city = f.props.CITY ∧
      (rowOfFeature f).state = f.props.STATE ∧
      (rowOfFeature f).zip_code = f.props.ZIP ∧
      (rowOfFeature f).county = f.props.COUNTY ∧
      (rowOfFeature f).directions = f.props.DIRECTIONS ∧
      (rowOfFeature f).location =
        "SRID=4326;POINT(" ++ f.coordinates.1 ++ " " ++ f.coordinates.2 ++ ")" := by
  obtain ⟨⟨lon, lat⟩, props⟩ := f
  exact ⟨rfl, rfl, rfl, rfl, rfl, rfl, rfl, rfl⟩
